import Mathlib

/-!
Verification of the VM Helper browser extension (vision-maker-translation-helper).

This file shallowly embeds the extension's core logic in Lean:

* `letter-templates.js` / `config.js` — the pure letter-template generator
  (`LetterTemplateGenerator.generatePersonalizedLetter`, `validateInputs`,
  `generateSimpleTemplate`, `generateFullTemplate`) with the configuration
  tables `VM_CONFIG.LETTER_TYPES`, `VM_CONFIG.AUTHOR_TYPES`,
  `templateConfigs`, `helperStatements`.
* `content.js` — the tab-close watcher (URL polling / history events /
  beforeunload / MutationObserver) as a step function on watcher state.
* `auto-rating.js` — `AutoRatingManager.clickRatingWithRetry` / `clickRating`
  as a bounded retry loop against an abstract DOM environment.
* `background.js` — `BackgroundManager.isTargetDomain` and
  `handleOpenInNewTab`.

JavaScript data points are modelled explicitly: a possibly-missing string
field is `Option String` (with `none` for `undefined`), JS truthiness of such
a field is `truthy`, and JS template interpolation of a possibly-undefined
value is `interp` (which renders `undefined` the way a template literal does).
-/

namespace VMHelper

/-- `Object.values(VM_CONFIG.LETTER_TYPES)` from `config.js`. -/
def LETTER_TYPES : List String := ["HANDPRINT", "PORTRAIT", "OTHER"]

/-- `Object.values(VM_CONFIG.AUTHOR_TYPES)` from `config.js`. -/
def AUTHOR_TYPES : List String := ["CHILD", "ANONYMOUS_HELPER", "NAMED_HELPER"]

/-- The `letterData` record passed to `generatePersonalizedLetter`:
`{sponsorName, childKoreanName, childEnglishName}`, each field a string that
may be absent (`none` models a missing/`undefined` property). -/
structure LetterData where
  sponsorName : Option String
  childKoreanName : Option String
  childEnglishName : Option String
deriving DecidableEq, Repr

/-- JS truthiness of a possibly-missing string field: `undefined` and the
empty string are falsy, every other string is truthy (`!letterData[field]`). -/
def truthy : Option String → Bool
  | none => false
  | some s => !(s == "")

/-- JS template-literal interpolation of a possibly-missing string:
`${undefined}` renders as the text `undefined`. -/
def interp : Option String → String
  | none => "undefined"
  | some s => s

/-- Property lookup `letterData[field]` for the three required field names. -/
def LetterData.field (d : LetterData) : String → Option String
  | "sponsorName" => d.sponsorName
  | "childKoreanName" => d.childKoreanName
  | "childEnglishName" => d.childEnglishName
  | _ => none

/-- `helperStatements[NAMED_HELPER]` from the generator's constructor. -/
def namedHelperStatement : String :=
  "*이 편지를 작성하는데 (자원봉사자/엄마/아빠/할머니/고모 등)인 한글독음(영문병기)가 도와주셨어요."

/-- `helperStatements[ANONYMOUS_HELPER]` from the generator's constructor. -/
def anonymousHelperStatement : String :=
  "*이 편지는 현지사업장 자원봉사자 혹은 가족의 도움으로 작성되었어요."

/-- The `helperStatements` table: `CHILD` maps to the empty string, a key not
in the table yields `undefined` (`none`). -/
def helperStatements (authorType : String) : Option String :=
  if authorType = "NAMED_HELPER" then some namedHelperStatement
  else if authorType = "ANONYMOUS_HELPER" then some anonymousHelperStatement
  else if authorType = "CHILD" then some ""
  else none

/-- The per-letter-type configuration used by `generateFullTemplate`:
`artElement` and `includeVillageQuestion` from `templateConfigs`. The `OTHER`
entry of the table carries only `isSimpleTemplate: true` (no art element, no
village flag), and `generateFullTemplate` is never reached for it, so it is
modelled by `none` here; the `OTHER` dispatch happens in
`generatePersonalizedLetter` below, exactly as in the source. -/
structure TemplateConfig where
  artElement : String
  includeVillageQuestion : Bool
deriving DecidableEq, Repr

/-- `this.templateConfigs` restricted to the fields `generateFullTemplate`
reads. -/
def templateConfigs (letterType : String) : Option TemplateConfig :=
  if letterType = "HANDPRINT" then some (TemplateConfig.mk "손도장" false)
  else if letterType = "PORTRAIT" then some (TemplateConfig.mk "자화상" true)
  else none

/-- The required-field list of `validateInputs`. -/
def requiredFields : List String := ["sponsorName", "childKoreanName", "childEnglishName"]

/-- `requiredFields.filter(field => !letterData[field])` from `validateInputs`. -/
def missingFields (d : LetterData) : List String :=
  requiredFields.filter (fun f => !truthy (d.field f))

/-- `LetterTemplateGenerator.validateInputs`: the accumulated error list.
`letterData = none` models a missing or non-object `letterData` argument. -/
def validateInputs (letterType authorType : String) (letterData : Option LetterData) :
    List String :=
  (if letterType ∈ LETTER_TYPES then [] else ["Invalid letter type: " ++ letterType]) ++
    (if authorType ∈ AUTHOR_TYPES then [] else ["Invalid author type: " ++ authorType]) ++
      (match letterData with
        | none => ["Letter data is required and must be an object"]
        | some d =>
          if letterType ≠ "OTHER" then
            (if missingFields d = [] then []
             else ["Missing required fields: " ++ String.intercalate ", " (missingFields d)])
          else [])

/-- The greeting line shared by both templates:
`` `사랑하는 ${data.sponsorName} 후원자님께,` ``. -/
def greetingLine (data : LetterData) : String :=
  "사랑하는 " ++ interp data.sponsorName ++ " 후원자님께,"

/-- The signature line shared by both templates:
`` `후원자님의 후원아동, ${data.childKoreanName}(${data.childEnglishName}) 올림` ``. -/
def signatureLine (data : LetterData) : String :=
  "후원자님의 후원아동, " ++ interp data.childKoreanName ++
    "(" ++ interp data.childEnglishName ++ ") 올림"

/-- The self-introduction line of the full template:
`` `제 이름은 ${data.childKoreanName}(${data.childEnglishName})이에요. 우리 서로 알아가요!` ``. -/
def introLine (data : LetterData) : String :=
  "제 이름은 " ++ interp data.childKoreanName ++
    "(" ++ interp data.childEnglishName ++ ")이에요. 우리 서로 알아가요!"

/-- The art line of the full template: `` `- 저의 ${config.artElement}을 그려 보았어요.` ``. -/
def artLine (art : String) : String :=
  "- 저의 " ++ art ++ "을 그려 보았어요."

/-- The village-question prompt pushed only when `config.includeVillageQuestion`. -/
def villageQuestionLine : String := "- 우리 마을에서 가장 좋아하는 것과 그 이유 :"

/-- `LetterTemplateGenerator.generateSimpleTemplate` as its `parts` array
(the generated letter is these lines joined with `"\n"`). -/
def generateSimpleTemplateParts (authorType : String) (data : LetterData) : List String :=
  let helperStatement := helperStatements authorType
  [greetingLine data, ""] ++
    (if truthy helperStatement then [interp helperStatement, ""] else []) ++
      [signatureLine data]

/-- `LetterTemplateGenerator.generateFullTemplate` as its `parts` array. -/
def generateFullTemplateParts (letterType authorType : String) (data : LetterData) :
    List String :=
  let config := templateConfigs letterType
  let helperStatement := helperStatements authorType
  [greetingLine data, "",
   "안녕하세요!", "",
   introLine data, "",
   artLine (interp (config.map TemplateConfig.artElement)), "",
   "- 제게 특별한 사람 :", "",
   "- 이 사람이 제게 특별한 이유 :", "", "",
   "- 저를 행복하게 해주는 것 :", ""] ++
    (if (config.map TemplateConfig.includeVillageQuestion).getD false then
      [villageQuestionLine, ""] else []) ++
      ["- 후원자님께 궁금한 것 :", "",
       "저를 후원해 주셔서 감사해요.",
       "후원자님의 소식을 빨리 듣고 싶어요!", ""] ++
        (if truthy helperStatement then [interp helperStatement, ""] else []) ++
          [signatureLine data]

/-- The line sequence of the generated letter after validation has passed:
`OTHER` dispatches to the simple template, everything else to the full one. -/
def generateParts (letterType authorType : String) (data : LetterData) : List String :=
  if letterType = "OTHER" then generateSimpleTemplateParts authorType data
  else generateFullTemplateParts letterType authorType data

/-- `LetterTemplateGenerator.generatePersonalizedLetter`: validate, then throw
(`Except.error`) the joined error message, or return the joined template.
The `none` inner branch is unreachable: `validateInputs` always reports
missing letter data, so validation cannot succeed with `letterData = none`. -/
def generatePersonalizedLetter (letterType authorType : String)
    (letterData : Option LetterData) : Except String String :=
  let errors := validateInputs letterType authorType letterData
  if errors = [] then
    match letterData with
    | some data => Except.ok (String.intercalate "\n" (generateParts letterType authorType data))
    | none => Except.error "Template generation failed: "
  else
    Except.error ("Template generation failed: " ++ String.intercalate ", " errors)

/-! ### content.js — tab-close watcher -/

/-- `TARGET_URL` from the top of `content.js`: the letterview success URL. -/
def TARGET_URL : String := "https://letter.worldvision.or.kr/mypage/letterlist/letterviewok.do"

/-- The success text the MutationObserver looks for in `document.body.innerText`. -/
def SUCCESS_TEXT : String := "번역완료 되었습니다."

/-- Boolean prefix test on character lists, used to model `String.includes`. -/
def isPrefixCharsB : List Char → List Char → Bool
  | [], _ => true
  | _ :: _, [] => false
  | a :: as, b :: bs => a == b && isPrefixCharsB as bs

/-- Boolean substring test on character lists. -/
def containsCharsB (sub : List Char) : List Char → Bool
  | [] => isPrefixCharsB sub []
  | c :: cs => isPrefixCharsB sub (c :: cs) || containsCharsB sub cs

/-- JavaScript `s.includes(sub)`. -/
def jsIncludes (s sub : String) : Bool := containsCharsB sub.data s.data

/-- Labels for the `closeTab` requests the watcher sends, recording which
trigger condition produced each request. -/
inductive CloseTrigger where
  | urlMatch : CloseTrigger
  | unload : CloseTrigger
  | successText : CloseTrigger
deriving DecidableEq, Repr

/-- The browser-delivered events the top-level watcher code of `content.js`
reacts to. `pollTick` is one firing of the 500 ms `setInterval`;
`formSubmitCheck` is the delayed check attached to the `letter_view` form's
submit handler. URL-carrying events record the `location.href` the handler
observes; `mutation` carries the current `document.body.innerText`. -/
inductive WatcherEvent where
  | popstate (href : String) : WatcherEvent
  | hashchange (href : String) : WatcherEvent
  | pollTick (href : String) : WatcherEvent
  | formSubmitCheck (href : String) : WatcherEvent
  | beforeunload : WatcherEvent
  | mutation (bodyText : String) : WatcherEvent
deriving DecidableEq, Repr

/-- The watcher's mutable state: the `lastUrl` variable and whether the
MutationObserver is still connected (`observer.disconnect()` clears it). -/
structure WatcherState where
  lastUrl : String
  observerConnected : Bool
deriving DecidableEq, Repr

/-- `checkUrlAndCloseIfNeeded`: send a close request exactly when the current
URL equals `TARGET_URL`. -/
def checkUrlAndCloseIfNeeded (href : String) : List CloseTrigger :=
  if href = TARGET_URL then [CloseTrigger.urlMatch] else []

/-- One event-handler step of the watcher: the new state and the `closeTab`
requests that handler sends. The poll tick acts only when the URL changed
since the last tick; the mutation callback acts only while the observer is
connected, and disconnects it after sending. -/
def watcherStep (st : WatcherState) : WatcherEvent → WatcherState × List CloseTrigger
  | WatcherEvent.popstate href => (st, checkUrlAndCloseIfNeeded href)
  | WatcherEvent.hashchange href => (st, checkUrlAndCloseIfNeeded href)
  | WatcherEvent.formSubmitCheck href => (st, checkUrlAndCloseIfNeeded href)
  | WatcherEvent.pollTick href =>
      if href ≠ st.lastUrl then
        (WatcherState.mk href st.observerConnected, checkUrlAndCloseIfNeeded href)
      else (st, [])
  | WatcherEvent.beforeunload => (st, [CloseTrigger.unload])
  | WatcherEvent.mutation bodyText =>
      if st.observerConnected && jsIncludes bodyText SUCCESS_TEXT then
        (WatcherState.mk st.lastUrl false, [CloseTrigger.successText])
      else (st, [])

/-- Run the watcher over a sequence of events, collecting every close request
sent during the page load. -/
def watcherRun (st : WatcherState) : List WatcherEvent → WatcherState × List CloseTrigger
  | [] => (st, [])
  | e :: es =>
      ((watcherRun (watcherStep st e).1 es).1,
        (watcherStep st e).2 ++ (watcherRun (watcherStep st e).1 es).2)

/-- The watcher state at page load: `lastUrl = location.href`, observer
connected. -/
def watcherInit (href : String) : WatcherState := WatcherState.mk href true

/-! ### auto-rating.js — retry-driven auto-interaction controller -/

/-- `this.maxRetries` of `AutoRatingManager`. -/
def maxRetries : Nat := 2

/-- `VM_CONFIG.TIMING.AUTO_RATING_RETRY_DELAY` (ms). -/
def AUTO_RATING_RETRY_DELAY : Nat := 2000

/-- The 500 ms settle delay inside `clickRating`, awaited between the click
and the `validateRatingClick` re-query. -/
def CLICK_SETTLE_DELAY : Nat := 500

/-- What one `safeQuerySelector` query for the rating element can observe:
nothing, a present but invisible element, or a present visible element
(visibility per `DOMUtils.isVisible`). -/
inductive ElemState where
  | absent : ElemState
  | presentHidden : ElemState
  | presentVisible : ElemState
deriving DecidableEq, Repr

/-- `AutoRatingManager.clickRating` against an abstract DOM: `env i` is what
the i-th query of the whole run observes. Returns (success, next query index,
delays awaited inside the attempt, in ms). An absent or invisible element
fails the attempt immediately with no click and no delay; a visible one is
clicked, the settle delay passes, and `validateRatingClick` then treats mere
continued presence of the element as success. -/
def clickRating (env : Nat → ElemState) (q : Nat) : Bool × Nat × List Nat :=
  match env q with
  | ElemState.absent => (false, q + 1, [])
  | ElemState.presentHidden => (false, q + 1, [])
  | ElemState.presentVisible =>
      (env (q + 1) != ElemState.absent, q + 2, [CLICK_SETTLE_DELAY])

/-- The outcome of `clickRatingWithRetry`: the boolean result it returns, the
number of `clickRating` attempts performed, and the full ordered sequence of
delays awaited (in ms). -/
structure RetryOutcome where
  success : Bool
  attempts : Nat
  delays : List Nat
deriving DecidableEq, Repr

/-- The `for (attempt = 0; attempt <= maxRetries; ...)` loop of
`clickRatingWithRetry`; `fuel` only bounds the recursion and equals
`maxRetries + 1 - attempt` at every call. A failed attempt with
`attempt < maxRetries` awaits the retry delay and continues; a failed last
attempt makes the loop return `false` (no exception — `clickRating` and
`handleAutoRating` catch and return `false`). -/
def clickRatingWithRetryAux (env : Nat → ElemState) : Nat → Nat → Nat → RetryOutcome
  | _, _, 0 => RetryOutcome.mk false 0 []
  | attempt, q, fuel + 1 =>
      let r := clickRating env q
      if r.1 then RetryOutcome.mk true 1 r.2.2
      else if attempt < maxRetries then
        let rest := clickRatingWithRetryAux env (attempt + 1) r.2.1 fuel
        RetryOutcome.mk rest.success (rest.attempts + 1)
          (r.2.2 ++ AUTO_RATING_RETRY_DELAY :: rest.delays)
      else RetryOutcome.mk false 1 r.2.2

/-- `AutoRatingManager.clickRatingWithRetry`. -/
def clickRatingWithRetry (env : Nat → ElemState) : RetryOutcome :=
  clickRatingWithRetryAux env 0 0 (maxRetries + 1)

/-! ### background.js — open-in-new-tab handling -/

/-- `BackgroundManager.isTargetDomain`: a falsy URL fails; otherwise the URL
string must contain both the substring `letter.worldvision.or.kr` and the
substring `letterview.do`. -/
def isTargetDomain (url : Option String) : Bool :=
  match url with
  | none => false
  | some u =>
      if u = "" then false
      else jsIncludes u "letter.worldvision.or.kr" && jsIncludes u "letterview.do"

/-- The observable outcome of `handleOpenInNewTab`: the `success` flag of the
response it sends, whether `chrome.tabs.create` was reached, and the error
message of a failure response. -/
structure OpenTabResponse where
  success : Bool
  tabCreated : Bool
  error : Option String
deriving DecidableEq, Repr

/-- `BackgroundManager.handleOpenInNewTab` for a message carrying the given
(possibly missing) `url`: a missing/empty URL or one failing `isTargetDomain`
throws before the tab is created and the catch block sends a failure
response; otherwise the tab is created and a success response is sent. -/
def handleOpenInNewTab (url : Option String) : OpenTabResponse :=
  match url with
  | none => OpenTabResponse.mk false false (some "URL is required for openInNewTab action")
  | some u =>
      if u = "" then
        OpenTabResponse.mk false false (some "URL is required for openInNewTab action")
      else if isTargetDomain (some u) then OpenTabResponse.mk true true none
      else OpenTabResponse.mk false false (some "URL is not from allowed domain")

/-- Modelled from the spec wording "validated against an allow-listed domain
(letter.worldvision.or.kr)": the host component of a URL, i.e. the text
between the `://` scheme separator and the next `/`, `?`, `#` or `:`.
The source has no host parser — `isTargetDomain` above is its actual check —
so this definition exists only to state the spec's domain-membership reading
and compare it with the code. -/
def urlHostChars : List Char → List Char
  | [] => []
  | c :: cs => if c = '/' ∨ c = '?' ∨ c = '#' ∨ c = ':' then [] else c :: urlHostChars cs

/-- The characters after the first `://` of a URL, when present. -/
def afterSchemeChars : List Char → Option (List Char)
  | [] => none
  | ':' :: '/' :: '/' :: rest => some rest
  | _ :: rest => afterSchemeChars rest

/-- The allow-listed domain the spec names. -/
def ALLOWED_DOMAIN : String := "letter.worldvision.or.kr"

/-- Spec reading of domain membership: the URL's host component equals the
allow-listed domain. -/
def belongsToAllowedDomain (u : String) : Bool :=
  match afterSchemeChars u.data with
  | none => false
  | some rest => String.mk (urlHostChars rest) == ALLOWED_DOMAIN

/-! ### Basic facts about the template generator -/

/-- Validation success, packaged: the inputs pass `validateInputs`. -/
def ValidInput (letterType authorType : String) (d : LetterData) : Prop :=
  validateInputs letterType authorType (some d) = []

theorem string_ne_of_head_ne (s t : String) (h : s.data.head? ≠ t.data.head?) : s ≠ t :=
  fun e => h (by rw [e])

theorem greetingLine_head (d : LetterData) : (greetingLine d).data.head? = some '사' := by
  have h : (greetingLine d).data =
      '사' :: ("랑하는 ".data ++ (interp d.sponsorName).data ++ " 후원자님께,".data) := rfl
  rw [h]; rfl

theorem introLine_head (d : LetterData) : (introLine d).data.head? = some '제' := by
  have h : (introLine d).data =
      '제' :: (" 이름은 ".data ++ (interp d.childKoreanName).data ++ "(".data ++
        (interp d.childEnglishName).data ++ ")이에요. 우리 서로 알아가요!".data) := rfl
  rw [h]; rfl

theorem signatureLine_head (d : LetterData) : (signatureLine d).data.head? = some '후' := by
  have h : (signatureLine d).data =
      '후' :: ("원자님의 후원아동, ".data ++ (interp d.childKoreanName).data ++ "(".data ++
        (interp d.childEnglishName).data ++ ") 올림".data) := rfl
  rw [h]; rfl

/-- A data-interpolating greeting line never coincides with a string that does
not start with the greeting's fixed first character. -/
theorem greetingLine_ne (d : LetterData) (t : String) (h : t.data.head? ≠ some '사') :
    greetingLine d ≠ t :=
  string_ne_of_head_ne _ _ (by rw [greetingLine_head]; exact fun e => h e.symm)

theorem introLine_ne (d : LetterData) (t : String) (h : t.data.head? ≠ some '제') :
    introLine d ≠ t :=
  string_ne_of_head_ne _ _ (by rw [introLine_head]; exact fun e => h e.symm)

theorem signatureLine_ne (d : LetterData) (t : String) (h : t.data.head? ≠ some '후') :
    signatureLine d ≠ t :=
  string_ne_of_head_ne _ _ (by rw [signatureLine_head]; exact fun e => h e.symm)

theorem missingFields_eq_nil_iff (d : LetterData) :
    missingFields d = [] ↔
      (truthy d.sponsorName = true ∧ truthy d.childKoreanName = true ∧
        truthy d.childEnglishName = true) := by
  simp only [missingFields, requiredFields, List.filter, LetterData.field]
  cases h1 : truthy d.sponsorName <;> cases h2 : truthy d.childKoreanName <;>
    cases h3 : truthy d.childEnglishName <;> simp

/-- `validateInputs` succeeds exactly when both enumerations are valid and,
for non-`OTHER` letters, no required field is falsy. -/
theorem validInput_iff (lt au : String) (d : LetterData) :
    ValidInput lt au d ↔
      (lt ∈ LETTER_TYPES ∧ au ∈ AUTHOR_TYPES ∧ (lt = "OTHER" ∨ missingFields d = [])) := by
  unfold ValidInput validateInputs
  by_cases h1 : lt ∈ LETTER_TYPES <;> by_cases h2 : au ∈ AUTHOR_TYPES <;>
    by_cases h3 : lt = "OTHER" <;> by_cases h4 : missingFields d = [] <;>
      simp [h1, h2, h3, h4]

/-- On validated inputs the generated letter is the line sequence
`generateParts`, joined with a single line break. -/
theorem generate_ok_of_valid (lt au : String) (d : LetterData) (h : ValidInput lt au d) :
    generatePersonalizedLetter lt au (some d) =
      Except.ok (String.intercalate "\n" (generateParts lt au d)) := by
  unfold generatePersonalizedLetter
  rw [show validateInputs lt au (some d) = [] from h]
  simp

/-- Generation succeeds exactly when validation reports no errors. -/
theorem generate_isOk_iff (lt au : String) (ld : Option LetterData) :
    (generatePersonalizedLetter lt au ld).isOk = true ↔ validateInputs lt au ld = [] := by
  unfold generatePersonalizedLetter
  by_cases h : validateInputs lt au ld = []
  · cases ld with
    | none => simp [validateInputs] at h
    | some d => simp [h, Except.isOk, Except.toBool]
  · simp [h, Except.isOk, Except.toBool]

/-! ### Further generator lemmas -/

theorem validateInputs_eq_nil_iff (lt au : String) (ld : Option LetterData) :
    validateInputs lt au ld = [] ↔
      (lt ∈ LETTER_TYPES ∧ au ∈ AUTHOR_TYPES ∧
        ∃ d, ld = some d ∧ (lt = "OTHER" ∨ missingFields d = [])) := by
  cases ld with
  | none => simp [validateInputs]
  | some d =>
      rw [show (validateInputs lt au (some d) = []) = ValidInput lt au d from rfl,
        validInput_iff]
      simp

theorem greetingLine_ne_anon (d : LetterData) : greetingLine d ≠ anonymousHelperStatement :=
  greetingLine_ne d _ (by decide)

theorem introLine_ne_anon (d : LetterData) : introLine d ≠ anonymousHelperStatement :=
  introLine_ne d _ (by decide)

theorem signatureLine_ne_anon (d : LetterData) : signatureLine d ≠ anonymousHelperStatement :=
  signatureLine_ne d _ (by decide)

theorem greetingLine_ne_named (d : LetterData) : greetingLine d ≠ namedHelperStatement :=
  greetingLine_ne d _ (by decide)

theorem introLine_ne_named (d : LetterData) : introLine d ≠ namedHelperStatement :=
  introLine_ne d _ (by decide)

theorem signatureLine_ne_named (d : LetterData) : signatureLine d ≠ namedHelperStatement :=
  signatureLine_ne d _ (by decide)

theorem greetingLine_ne_village (d : LetterData) : greetingLine d ≠ villageQuestionLine :=
  greetingLine_ne d _ (by decide)

theorem introLine_ne_village (d : LetterData) : introLine d ≠ villageQuestionLine :=
  introLine_ne d _ (by decide)

theorem signatureLine_ne_village (d : LetterData) : signatureLine d ≠ villageQuestionLine :=
  signatureLine_ne d _ (by decide)

/-! ### Watcher lemmas -/

theorem checkUrl_count_successText (href : String) :
    (checkUrlAndCloseIfNeeded href).count CloseTrigger.successText = 0 := by
  unfold checkUrlAndCloseIfNeeded; split <;> simp

theorem watcherStep_successText (st : WatcherState) (e : WatcherEvent) :
    (watcherStep st e).2.count CloseTrigger.successText = 0 ∨
      ((watcherStep st e).2.count CloseTrigger.successText = 1 ∧
        (watcherStep st e).1.observerConnected = false) := by
  cases e <;> simp [watcherStep, checkUrl_count_successText] <;> split <;>
    simp [checkUrl_count_successText]

theorem watcherStep_connected_of (st : WatcherState) (e : WatcherEvent)
    (h : st.observerConnected = false) :
    (watcherStep st e).1.observerConnected = false ∧
      (watcherStep st e).2.count CloseTrigger.successText = 0 := by
  cases e <;> simp [watcherStep, checkUrl_count_successText, h]
  split <;> simp [h, checkUrl_count_successText]

theorem watcherRun_disconnected (evs : List WatcherEvent) (st : WatcherState)
    (h : st.observerConnected = false) :
    (watcherRun st evs).2.count CloseTrigger.successText = 0 := by
  induction evs generalizing st with
  | nil => simp [watcherRun]
  | cons e es ih =>
      have hs := watcherStep_connected_of st e h
      simp [watcherRun, List.count_append, hs.2, ih _ hs.1]

theorem watcherRun_successText_le_one (evs : List WatcherEvent) (st : WatcherState) :
    (watcherRun st evs).2.count CloseTrigger.successText ≤ 1 := by
  induction evs generalizing st with
  | nil => simp [watcherRun]
  | cons e es ih =>
      rcases watcherStep_successText st e with h | ⟨h1, h2⟩
      · simpa [watcherRun, List.count_append, h] using ih _
      · simp [watcherRun, List.count_append, h1, watcherRun_disconnected es _ h2]

/-! ### The claims -/

/-- Claim C1, counterexample: the watcher does not fire at most once per page
load. On the event trace "the success text appears in the body, then the page
unloads", the mutation trigger sends a close request and the unload trigger
sends a second one — two close-tab requests in one page load. -/
theorem c1_counterexample :
    (watcherRun (watcherInit TARGET_URL)
        [WatcherEvent.mutation SUCCESS_TEXT, WatcherEvent.beforeunload]).2 =
      [CloseTrigger.successText, CloseTrigger.unload] := by decide

/-- Claim C1, amended: only the DOM-mutation trigger is one-shot. Over every
event trace of a page load, at most one close-tab request originates from the
success-text mutation observer (it disconnects after its first firing); the
URL-match and unload triggers are not suppressed after a first request. -/
theorem c1_mutation_trigger_at_most_once (initialHref : String) (evs : List WatcherEvent) :
    ((watcherRun (watcherInit initialHref) evs).2.count CloseTrigger.successText) ≤ 1 :=
  watcherRun_successText_le_one evs (watcherInit initialHref)

/-- Claim C2, counterexample: for `letterType = OTHER` an empty
`sponsorName`, `childKoreanName` and `childEnglishName` do NOT fail
generation — `generatePersonalizedLetter` succeeds and produces a letter with
the empty names interpolated. -/
theorem c2_counterexample :
    generatePersonalizedLetter "OTHER" "CHILD"
        (some (LetterData.mk (some "") (some "") (some ""))) =
      Except.ok "사랑하는  후원자님께,\n\n후원자님의 후원아동, () 올림" := rfl

/-- Claim C2, amended: for `letterType = OTHER` no letter-data field is
required: `validateInputs` skips the required-field check for `OTHER`, so
with any valid author type and any (object) letter data, generation succeeds
and returns the simple template. -/
theorem c2_other_requires_no_fields (au : String) (d : LetterData) (hau : au ∈ AUTHOR_TYPES) :
    generatePersonalizedLetter "OTHER" au (some d) =
      Except.ok (String.intercalate "\n" (generateSimpleTemplateParts au d)) := by
  have h : ValidInput "OTHER" au d := (validInput_iff _ _ _).mpr ⟨by decide, hau, Or.inl rfl⟩
  rw [generate_ok_of_valid _ _ _ h]
  simp [generateParts]

theorem c2_witness :
    generatePersonalizedLetter "OTHER" "NAMED_HELPER" (some (LetterData.mk none none none)) =
      Except.ok (String.intercalate "\n"
        (generateSimpleTemplateParts "NAMED_HELPER" (LetterData.mk none none none))) :=
  c2_other_requires_no_fields "NAMED_HELPER" (LetterData.mk none none none) (by decide)

/-- Claim C3, counterexample: the openInNewTab check is substring
containment, not domain membership. A URL hosted on `evil.example` whose
query string merely mentions `letter.worldvision.or.kr` and `letterview.do`
does not belong to the allow-listed domain, yet the request is honored: a tab
is created and a success response returned. -/
theorem c3_counterexample :
    belongsToAllowedDomain
        "https://evil.example/page?from=letter.worldvision.or.kr/letterview.do" = false ∧
    handleOpenInNewTab
        (some "https://evil.example/page?from=letter.worldvision.or.kr/letterview.do") =
      OpenTabResponse.mk true true none := by decide

/-- Claim C3, amended: every openInNewTab request is checked before a tab is
created, but the check is `isTargetDomain`'s substring containment: a tab is
created exactly when the request carries a URL containing both the substrings
`letter.worldvision.or.kr` and `letterview.do`; whenever `isTargetDomain`
rejects the URL, no tab is created and a failure response with an error
message is returned. -/
theorem c3_allowlist_substring_check (url : Option String) :
    ((handleOpenInNewTab url).tabCreated = true ↔
      ∃ u, url = some u ∧ jsIncludes u "letter.worldvision.or.kr" = true ∧
        jsIncludes u "letterview.do" = true) ∧
    (isTargetDomain url = false →
      (handleOpenInNewTab url).success = false ∧
        (handleOpenInNewTab url).tabCreated = false ∧
        (handleOpenInNewTab url).error.isSome = true) := by
  cases url with
  | none => exact ⟨by simp [handleOpenInNewTab], by simp [handleOpenInNewTab]⟩
  | some u =>
      by_cases hu : u = ""
      · subst hu
        constructor
        · have h1 : jsIncludes "" "letter.worldvision.or.kr" = false := by decide
          simp [handleOpenInNewTab, h1]
        · simp [handleOpenInNewTab]
      · by_cases ht : isTargetDomain (some u) = true
        · have hand := ht
          simp only [isTargetDomain, if_neg hu, Bool.and_eq_true] at hand
          constructor
          · simp [handleOpenInNewTab, hu, ht]
            exact hand
          · intro hf
            rw [ht] at hf
            cases hf
        · have hf : isTargetDomain (some u) = false := by
            cases hx : isTargetDomain (some u)
            · rfl
            · exact absurd hx ht
          constructor
          · simp only [handleOpenInNewTab, if_neg hu, hf, if_false]
            constructor
            · intro hx
              cases hx
            · rintro ⟨v, hv, h1, h2⟩
              cases hv
              simp [isTargetDomain, hu, h1, h2] at hf
          · intro hmm
            simp [handleOpenInNewTab, hu, hf, Option.isSome]

theorem c3_witness :
    (handleOpenInNewTab (some "https://example.com/")).success = false ∧
    (handleOpenInNewTab (some "https://example.com/")).tabCreated = false ∧
    (handleOpenInNewTab (some "https://example.com/")).error.isSome = true :=
  (c3_allowlist_substring_check (some "https://example.com/")).2 (by decide)

/-- Claim C4: if the rating control is never found, `clickRatingWithRetry`
performs exactly `maxRetries + 1` attempts, awaits the configured retry delay
between consecutive attempts (and nothing else), and reports failure as the
boolean `false` (the model returns a value — the source catches exceptions
and returns `false`); if the control is found and visible on the first
attempt (and, per the weak verification of `validateRatingClick`, is still
present at the post-click re-query), exactly one attempt occurs and the
controller reports success, with only the in-attempt settle delay and no
retry delay. -/
theorem c4_retry_controller (env : Nat → ElemState) :
    ((∀ q, env q = ElemState.absent) →
      clickRatingWithRetry env =
        RetryOutcome.mk false (maxRetries + 1)
          [AUTO_RATING_RETRY_DELAY, AUTO_RATING_RETRY_DELAY]) ∧
    (env 0 = ElemState.presentVisible → env 1 ≠ ElemState.absent →
      clickRatingWithRetry env = RetryOutcome.mk true 1 [CLICK_SETTLE_DELAY]) := by
  constructor
  · intro h
    have he : env = fun _ => ElemState.absent := funext h
    subst he
    decide
  · intro h0 h1
    have hb : (env 1 != ElemState.absent) = true := bne_iff_ne.mpr h1
    show clickRatingWithRetryAux env 0 0 (2 + 1) = RetryOutcome.mk true 1 [CLICK_SETTLE_DELAY]
    rw [clickRatingWithRetryAux]
    simp [clickRating, h0, hb]

theorem c4_witness :
    clickRatingWithRetry (fun _ => ElemState.absent) =
      RetryOutcome.mk false (maxRetries + 1)
        [AUTO_RATING_RETRY_DELAY, AUTO_RATING_RETRY_DELAY] ∧
    clickRatingWithRetry (fun _ => ElemState.presentVisible) =
      RetryOutcome.mk true 1 [CLICK_SETTLE_DELAY] :=
  ⟨(c4_retry_controller (fun _ => ElemState.absent)).1 (fun _ => rfl),
   (c4_retry_controller (fun _ => ElemState.presentVisible)).2 rfl (by decide)⟩

/-- Claim C5: generation fails exactly when the letter type is unknown, or
the author type is unknown, or the letter data is missing/not an object, or
(for a non-`OTHER` letter type) some required field is falsy; and on
`letterType = "PORTRAIT"` with `data = {sponsorName: ""}` the failure message
names all three required fields at once. -/
theorem c5_validation_exhaustive (lt au : String) (ld : Option LetterData) :
    ((generatePersonalizedLetter lt au ld).isOk = false ↔
      (lt ∉ LETTER_TYPES ∨ au ∉ AUTHOR_TYPES ∨ ld = none ∨
        ∃ d, ld = some d ∧ lt ≠ "OTHER" ∧ missingFields d ≠ [])) ∧
    generatePersonalizedLetter "PORTRAIT" "CHILD" (some (LetterData.mk (some "") none none)) =
      Except.error
        "Template generation failed: Missing required fields: sponsorName, childKoreanName, childEnglishName" := by
  constructor
  · rw [show ((generatePersonalizedLetter lt au ld).isOk = false) ↔
        ¬((generatePersonalizedLetter lt au ld).isOk = true) from by simp,
      generate_isOk_iff, validateInputs_eq_nil_iff]
    cases ld with
    | none => simp
    | some d =>
        by_cases h1 : lt ∈ LETTER_TYPES <;> by_cases h2 : au ∈ AUTHOR_TYPES <;>
          by_cases h3 : lt = "OTHER" <;> by_cases h4 : missingFields d = [] <;>
            simp [h1, h2, h3, h4]
  · rfl

/-- Claim C6: on every input passing validation, an `ANONYMOUS_HELPER` letter
contains the anonymous-helper attribution sentence exactly once among its
lines, a `NAMED_HELPER` letter contains the named-helper sentence exactly
once, and a `CHILD` letter contains neither. -/
theorem c6_helper_attribution (lt au : String) (d : LetterData) (h : ValidInput lt au d) :
    (au = "ANONYMOUS_HELPER" → (generateParts lt au d).count anonymousHelperStatement = 1) ∧
    (au = "NAMED_HELPER" → (generateParts lt au d).count namedHelperStatement = 1) ∧
    (au = "CHILD" → anonymousHelperStatement ∉ generateParts lt au d ∧
      namedHelperStatement ∉ generateParts lt au d) := by
  have hlt : lt = "HANDPRINT" ∨ lt = "PORTRAIT" ∨ lt = "OTHER" := by
    have h1 := ((validInput_iff lt au d).mp h).1
    simpa [LETTER_TYPES] using h1
  have g1 := greetingLine_ne_anon d
  have g2 := introLine_ne_anon d
  have g3 := signatureLine_ne_anon d
  have n1 := greetingLine_ne_named d
  have n2 := introLine_ne_named d
  have n3 := signatureLine_ne_named d
  have g1s := Ne.symm g1
  have g2s := Ne.symm g2
  have g3s := Ne.symm g3
  have n1s := Ne.symm n1
  have n2s := Ne.symm n2
  have n3s := Ne.symm n3
  simp only [anonymousHelperStatement, namedHelperStatement] at g1 g2 g3 n1 n2 n3 g1s g2s g3s n1s n2s n3s
  refine ⟨?_, ?_, ?_⟩ <;> intro hau <;> subst hau <;>
    rcases hlt with h' | h' | h' <;> subst h' <;>
      simp [generateParts, generateFullTemplateParts, generateSimpleTemplateParts,
        helperStatements, templateConfigs, truthy, interp, artLine, villageQuestionLine,
        anonymousHelperStatement, namedHelperStatement,
        List.count_cons, List.count_append, g1, g2, g3, n1, n2, n3,
        g1s, g2s, g3s, n1s, n2s, n3s]

theorem c6_witness :
    (generateParts "PORTRAIT" "ANONYMOUS_HELPER"
        (LetterData.mk (some "홍길동") (some "김민수") (some "Minsu Kim"))).count
      anonymousHelperStatement = 1 :=
  (c6_helper_attribution "PORTRAIT" "ANONYMOUS_HELPER"
      (LetterData.mk (some "홍길동") (some "김민수") (some "Minsu Kim"))
      (by unfold ValidInput; decide)).1 rfl

/-- Claim C7: on every input passing validation, a `PORTRAIT` letter contains
the village-question prompt line and a `HANDPRINT` letter never does. -/
theorem c7_village_question (lt au : String) (d : LetterData) (h : ValidInput lt au d) :
    (lt = "PORTRAIT" → villageQuestionLine ∈ generateParts lt au d) ∧
    (lt = "HANDPRINT" → villageQuestionLine ∉ generateParts lt au d) := by
  have hau : au = "CHILD" ∨ au = "ANONYMOUS_HELPER" ∨ au = "NAMED_HELPER" := by
    have h1 := ((validInput_iff lt au d).mp h).2.1
    simpa [AUTHOR_TYPES] using h1
  have v1 := Ne.symm (greetingLine_ne_village d)
  have v2 := Ne.symm (introLine_ne_village d)
  have v3 := Ne.symm (signatureLine_ne_village d)
  simp only [villageQuestionLine] at v1 v2 v3
  constructor <;> intro hlt <;> subst hlt <;>
    rcases hau with h' | h' | h' <;> subst h' <;>
      simp [generateParts, generateFullTemplateParts, helperStatements, templateConfigs,
        truthy, interp, artLine, villageQuestionLine, anonymousHelperStatement,
        namedHelperStatement, v1, v2, v3]

theorem c7_witness :
    villageQuestionLine ∈ generateParts "PORTRAIT" "CHILD"
      (LetterData.mk (some "홍길동") (some "김민수") (some "Minsu Kim")) :=
  (c7_village_question "PORTRAIT" "CHILD"
      (LetterData.mk (some "홍길동") (some "김민수") (some "Minsu Kim"))
      (by unfold ValidInput; decide)).1 rfl

/-- Claim C8: on the concrete input `letterType = OTHER`, `authorType =
CHILD`, `data = {sponsorName: 홍길동, childKoreanName: 김민수,
childEnglishName: Minsu Kim}`, generation succeeds with the exact two-block
letter, whose last line is exactly the signature line and which contains
neither helper-attribution sentence. -/
theorem c8_other_child_concrete :
    generatePersonalizedLetter "OTHER" "CHILD"
        (some (LetterData.mk (some "홍길동") (some "김민수") (some "Minsu Kim"))) =
      Except.ok "사랑하는 홍길동 후원자님께,\n\n후원자님의 후원아동, 김민수(Minsu Kim) 올림" ∧
    (generateParts "OTHER" "CHILD"
        (LetterData.mk (some "홍길동") (some "김민수") (some "Minsu Kim"))).getLast? =
      some "후원자님의 후원아동, 김민수(Minsu Kim) 올림" ∧
    anonymousHelperStatement ∉
      generateParts "OTHER" "CHILD" (LetterData.mk (some "홍길동") (some "김민수") (some "Minsu Kim")) ∧
    namedHelperStatement ∉
      generateParts "OTHER" "CHILD" (LetterData.mk (some "홍길동") (some "김민수") (some "Minsu Kim")) :=
  ⟨rfl, by decide, by decide, by decide⟩

/-- Claim C9: the generator is deterministic — two calls with identical
`(letterType, authorType, letterData)` inputs return identical results. The
embedding is a pure function of these arguments (the source reads only its
parameters and the constant tables built in the constructor; no network or
DOM access occurs in `letter-templates.js`). -/
theorem c9_generator_deterministic (lt₁ lt₂ au₁ au₂ : String) (ld₁ ld₂ : Option LetterData)
    (hlt : lt₁ = lt₂) (hau : au₁ = au₂) (hld : ld₁ = ld₂) :
    generatePersonalizedLetter lt₁ au₁ ld₁ = generatePersonalizedLetter lt₂ au₂ ld₂ := by
  rw [hlt, hau, hld]

theorem c9_witness :
    generatePersonalizedLetter "PORTRAIT" "CHILD"
        (some (LetterData.mk (some "홍길동") (some "김민수") (some "Minsu Kim"))) =
      generatePersonalizedLetter "PORTRAIT" "CHILD"
        (some (LetterData.mk (some "홍길동") (some "김민수") (some "Minsu Kim"))) :=
  c9_generator_deterministic _ _ _ _ _ _ rfl rfl rfl

/-- Claim C10: required-field validation is JS truthiness, not trimmed
emptiness — a field is missing exactly when it is absent or the empty string,
so for `HANDPRINT`/`PORTRAIT` any non-empty strings (whitespace-only ones
included, as the witness instantiates) pass validation, generation succeeds,
and the raw `sponsorName` value is embedded into the letter's greeting
line. -/
theorem c10_truthiness_not_trimmed (lt au s k e : String)
    (hlt : lt = "HANDPRINT" ∨ lt = "PORTRAIT") (hau : au ∈ AUTHOR_TYPES)
    (hs : s ≠ "") (hk : k ≠ "") (he : e ≠ "") :
    (∀ o : Option String, truthy o = false ↔ (o = none ∨ o = some "")) ∧
    ValidInput lt au (LetterData.mk (some s) (some k) (some e)) ∧
    generatePersonalizedLetter lt au (some (LetterData.mk (some s) (some k) (some e))) =
      Except.ok (String.intercalate "\n"
        (generateFullTemplateParts lt au (LetterData.mk (some s) (some k) (some e)))) ∧
    ("사랑하는 " ++ s ++ " 후원자님께,") ∈
      generateFullTemplateParts lt au (LetterData.mk (some s) (some k) (some e)) := by
  have hO : lt ≠ "OTHER" := by rcases hlt with h | h <;> subst h <;> decide
  have hin : lt ∈ LETTER_TYPES := by rcases hlt with h | h <;> subst h <;> decide
  have hval : ValidInput lt au (LetterData.mk (some s) (some k) (some e)) := by
    refine (validInput_iff _ _ _).mpr ⟨hin, hau, Or.inr ?_⟩
    rw [missingFields_eq_nil_iff]
    refine ⟨?_, ?_, ?_⟩ <;> simp [truthy, hs, hk, he]
  refine ⟨?_, hval, ?_, ?_⟩
  · intro o
    cases o with
    | none => simp [truthy]
    | some t => simp [truthy]
  · rw [generate_ok_of_valid _ _ _ hval]
    simp [generateParts, hO]
  · simp [generateFullTemplateParts, greetingLine, interp]

theorem c10_witness :
    ValidInput "HANDPRINT" "CHILD" (LetterData.mk (some " ") (some "김민수") (some "Minsu Kim")) :=
  (c10_truthiness_not_trimmed "HANDPRINT" "CHILD" " " "김민수" "Minsu Kim" (Or.inl rfl)
    (by decide) (by decide) (by decide) (by decide)).2.1

end VMHelper
